import Mathlib

/-!
Shallow embedding of `src/bank/bank.py`: an in-memory bank ledger with
account creation, PIN-gated deposits/withdrawals/transfers and query
operations.  Python's mutable `self.accounts` dict becomes an explicit
association list threaded through every operation (Python dicts are
insertion ordered; updates keep position, new keys append at the end).
`datetime` values become abstract `Nat` ticks; `random` draws become
explicit seed parameters; exceptions become an `Except BankError` result,
with every operation also returning the ledger state it leaves behind.
-/

/-- A calendar date as produced by `datetime.datetime.strptime(dob, "%Y-%m-%d").date()`. -/
structure Date where
  year : Nat
  month : Nat
  day : Nat
deriving DecidableEq

/-- One entry of an account's `transaction_history` list (a Python dict with
keys "type", "amount", "time", "note"). -/
structure Transaction where
  type : String
  amount : Int
  time : Nat
  note : String
deriving DecidableEq

/-- One value of the `self.accounts` dict. -/
structure Account where
  account_holder : String
  balance : Int
  transaction_history : List Transaction
  creation_time : Nat
  dob : Date
  pin : Int
deriving DecidableEq

/-- The `Bank` object: its only state is the `accounts` dict, embedded as an
insertion-ordered association list from account number to account record. -/
structure Bank where
  accounts : List (String × Account)
deriving DecidableEq

/-- The seven exception classes of `bank.py`, each carrying its message. -/
inductive BankError where
  | LimitError (msg : String)
  | AccountNotFound (msg : String)
  | InvalidPinError (msg : String)
  | InvalidDateFormatError (msg : String)
  | InvalidAgeError (msg : String)
  | InsufficientBalanceError (msg : String)
  | InvalidAmountError (msg : String)
deriving DecidableEq

deriving instance DecidableEq for Except

/-- Python `d[k]` lookup on an insertion-ordered dict embedded as a list:
first entry with the key (keys are unique in an actual dict). -/
def dictGet? : List (String × Account) → String → Option Account
  | [], _ => none
  | (k', v) :: rest, k => if k' = k then some v else dictGet? rest k

/-- Python `d[k] = v`: replace the value in place when the key is present,
append a new entry otherwise. -/
def dictSet : List (String × Account) → String → Account → List (String × Account)
  | [], k, v => [(k, v)]
  | (k', v') :: rest, k, v =>
      if k' = k then (k, v) :: rest else (k', v') :: dictSet rest k v

/-- In-place mutation of the entry at a key (`d[k]["field"] += ...`,
`d[k]["transaction_history"].append(...)`); identity when the key is absent
(the source would raise `KeyError`, but every caller validates existence first). -/
def dictModify : List (String × Account) → String → (Account → Account) → List (String × Account)
  | [], _, _ => []
  | (k', v) :: rest, k, f =>
      if k' = k then (k', f v) :: rest else (k', v) :: dictModify rest k f

namespace Bank

def MAX_ACCOUNTS : Nat := 10000
def MIN_BALANCE : Int := 100
def MIN_AGE : Int := 18
def MAX_AGE : Int := 80
def ACCOUNT_PREFIX : String := "230406"

/-- `str(n).zfill(w)` for a nonnegative number. -/
def zfill (s : String) (w : Nat) : String :=
  if s.length ≥ w then s else String.mk (List.replicate (w - s.length) '0') ++ s

/-- `Bank.generate_account_number`: draws random suffixes in 0..9999 until the
prefixed number collides with no existing account.  The unbounded `while True`
loop is embedded over an explicit stream of draws; `none` stands for the loop
never finding a fresh number within the stream. -/
def generate_account_number (b : Bank) : List Nat → Option String
  | [] => none
  | r :: rs =>
      let suffix := zfill (toString (r % 10000)) 4
      let account_number := ACCOUNT_PREFIX ++ suffix
      if (dictGet? b.accounts account_number).isNone then some account_number
      else generate_account_number b rs

/-- `Bank.generate_pin`: `random.randint(1000, 9999)`, embedded as a function
of the random draw. -/
def generate_pin (r : Nat) : Int := 1000 + (r % 9000 : Nat)

/-- `Bank.transaction_log`: append a transaction record to an account's history. -/
def transaction_log (b : Bank) (account : String) (type_of_txn : String)
    (amount : Int) (time : Nat) (note : String) : Bank :=
  ⟨dictModify b.accounts account (fun acc =>
    { acc with transaction_history :=
        acc.transaction_history ++
          [{ type := type_of_txn, amount := amount, time := time, note := note }] })⟩

/-- `Bank.validate_pin`.  The source reads `self.accounts[account]["pin"]`,
so the account is assumed present (all callers validate existence first);
on an absent key we return `.ok` where the source would raise `KeyError`. -/
def validate_pin (b : Bank) (account : String) (pin : Int) : Except BankError Unit :=
  match dictGet? b.accounts account with
  | some acc => if pin ≠ acc.pin then .error (.InvalidPinError "Invalid Pin") else .ok ()
  | none => .ok ()

/-- `Bank.validate_account`. -/
def validate_account (b : Bank) (account : String) : Except BankError Unit :=
  if (dictGet? b.accounts account).isNone then
    .error (.AccountNotFound "Account not found")
  else .ok ()

/-- `Bank.validate_amount`. -/
def validate_amount (amount : Int) : Except BankError Unit :=
  if amount ≤ 0 then
    .error (.InvalidAmountError "Amount for deposit/withdrawal/transfer should be greater than 0")
  else .ok ()

/-- `Bank.validate_balance`.  Reads the account's balance (callers validate
existence first; absent key yields `.ok` where the source would raise `KeyError`). -/
def validate_balance (b : Bank) (account : String) (amount : Int) : Except BankError Unit :=
  match dictGet? b.accounts account with
  | some acc =>
      if acc.balance - amount < MIN_BALANCE then
        .error (.InsufficientBalanceError
          ("Balance after withdrawal/transfer should be more than ₹" ++ toString MIN_BALANCE))
      else .ok ()
  | none => .ok ()

/-- Reading `self.accounts[account]["balance"]` (callers only do this on
existing accounts). -/
def balanceOf (b : Bank) (account : String) : Int :=
  ((dictGet? b.accounts account).map Account.balance).getD 0

/-- Whether a year is a leap year (Gregorian, as Python's `datetime`). -/
def is_leap (y : Nat) : Bool := y % 4 = 0 && (y % 100 ≠ 0 || y % 400 = 0)

/-- Number of days of a month, as `datetime.date` validates them. -/
def days_in_month (y m : Nat) : Nat :=
  if m = 2 then (if is_leap y then 29 else 28)
  else if m = 4 || m = 6 || m = 9 || m = 11 then 30
  else 31

/-- Splitting a character list at every `-` (the semantics of Python's
`s.split("-")` restricted to a one-character separator). -/
def splitDash : List Char → List (List Char)
  | [] => [[]]
  | c :: rest =>
      match splitDash rest with
      | [] => []
      | g :: gs => if c = '-' then [] :: g :: gs else (c :: g) :: gs

/-- The numeric value of a digit string. -/
def digitsToNat (cs : List Char) : Nat :=
  cs.foldl (fun n c => 10 * n + (c.toNat - 48)) 0

/-- `datetime.datetime.strptime(s, "%Y-%m-%d").date()`: `%Y` matches exactly
4 digits, `%m` and `%d` match 1–2 digits with values 1–12 and 1–31, the whole
string must be consumed, and the resulting date must be valid (year ≥ 1, day
within the month); any failure raises `ValueError`, embedded as `none`. -/
def strptime_date (s : String) : Option Date :=
  match splitDash s.data with
  | [y, m, d] =>
      if y.length = 4 ∧ y.all Char.isDigit ∧
         1 ≤ m.length ∧ m.length ≤ 2 ∧ m.all Char.isDigit ∧
         1 ≤ d.length ∧ d.length ≤ 2 ∧ d.all Char.isDigit then
        let yv := digitsToNat y
        let mv := digitsToNat m
        let dv := digitsToNat d
        if 1 ≤ yv ∧ 1 ≤ mv ∧ mv ≤ 12 ∧ 1 ≤ dv ∧ dv ≤ days_in_month yv mv then
          some ⟨yv, mv, dv⟩
        else none
      else none
  | _ => none

/-- Python's lexicographic comparison `(a, b) < (c, d)` on pairs of ints. -/
def pairLt (a b : Nat × Nat) : Bool := a.1 < b.1 || (a.1 == b.1 && a.2 < b.2)

/-- Age as `account_creation` computes it:
`today.year - dob.year - ((today.month, today.day) < (dob.month, dob.day))`. -/
def computed_age (today dob_date : Date) : Int :=
  (today.year : Int) - (dob_date.year : Int) -
    (if pairLt (today.month, today.day) (dob_date.month, dob_date.day) then 1 else 0)

/-- The pin `account_creation` stores and returns: the caller's when it is a
4-digit pin, a generated one otherwise
(`if pin is None or not (1000 <= pin <= 9999): pin = self.generate_pin()`). -/
def effective_pin (pin : Option Int) (pinSeed : Nat) : Int :=
  match pin with
  | none => generate_pin pinSeed
  | some p => if 1000 ≤ p ∧ p ≤ 9999 then p else generate_pin pinSeed

/-- The payload of a successful `account_creation`. -/
structure CreationResult where
  account_number : String
  pin : Int
  message : String
deriving DecidableEq

/-- The payload of a successful `deposit`, `withdrawal` or `display_balance`. -/
structure OpResult where
  message : String
  balance : Int
deriving DecidableEq

/-- The payload of a successful `transfer`. -/
structure TransferResult where
  message : String
  balance_from : Int
  balance_to : Int
deriving DecidableEq

/-- `Bank.account_creation`.  `today` and `now` stand for
`datetime.date.today()` / `datetime.datetime.now()`, `acctSeeds` for the
suffix draws of `generate_account_number` and `pinSeed` for the draw of
`generate_pin`.  The outer `Option` is `none` exactly when the
account-number loop never terminates within its draws; every exceptional
exit of the source is a `some (b, .error _)` with the ledger unchanged. -/
def account_creation (b : Bank) (name : String) (balance : Int) (dob : String)
    (pin : Option Int) (today : Date) (now : Nat) (acctSeeds : List Nat)
    (pinSeed : Nat) : Option (Bank × Except BankError CreationResult) :=
  if b.accounts.length = MAX_ACCOUNTS then
    some (b, .error (.LimitError "Total account limit reached. Unable to create a new account."))
  else
    match strptime_date dob with
    | none => some (b, .error (.InvalidDateFormatError "Invalid date format. Please use YYYY-MM-DD."))
    | some dob_date =>
        let age := computed_age today dob_date
        if ¬(MIN_AGE ≤ age ∧ age ≤ MAX_AGE) then
          some (b, .error (.InvalidAgeError
            ("Sorry account creation is only allowed between the ages of " ++
              toString MIN_AGE ++ " and " ++ toString MAX_AGE)))
        else if balance < MIN_BALANCE then
          some (b, .error (.InvalidAmountError
            ("Opening balance must be at least ₹" ++ toString MIN_BALANCE ++ ".")))
        else
          let pin' := effective_pin pin pinSeed
          match generate_account_number b acctSeeds with
          | none => none
          | some account_number =>
              let created_at := now
              let acc : Account :=
                { account_holder := name
                  balance := balance
                  transaction_history :=
                    [{ type := "Deposit", amount := balance, time := created_at,
                       note := "Opening balance" }]
                  creation_time := created_at
                  dob := dob_date
                  pin := pin' }
              some (⟨dictSet b.accounts account_number acc⟩,
                .ok { account_number := account_number, pin := pin',
                      message := "✅ Account created successfully!" })

/-- `Bank.deposit`.  `time` stands for `datetime.datetime.now()`. -/
def deposit (b : Bank) (account : String) (pin amount : Int) (time : Nat) :
    Bank × Except BankError OpResult :=
  match validate_account b account with
  | .error e => (b, .error e)
  | .ok _ =>
  match validate_pin b account pin with
  | .error e => (b, .error e)
  | .ok _ =>
  match validate_amount amount with
  | .error e => (b, .error e)
  | .ok _ =>
    let b1 : Bank := ⟨dictModify b.accounts account
      (fun acc => { acc with balance := acc.balance + amount })⟩
    let b2 := transaction_log b1 account "Deposit" amount time "Cash deposit"
    (b2, .ok { message := "✅ ₹" ++ toString amount ++ " has been successfully deposited.",
               balance := balanceOf b2 account })

/-- `Bank.withdrawal`. -/
def withdrawal (b : Bank) (account : String) (pin amount : Int) (time : Nat) :
    Bank × Except BankError OpResult :=
  match validate_account b account with
  | .error e => (b, .error e)
  | .ok _ =>
  match validate_pin b account pin with
  | .error e => (b, .error e)
  | .ok _ =>
  match validate_amount amount with
  | .error e => (b, .error e)
  | .ok _ =>
  match validate_balance b account amount with
  | .error e => (b, .error e)
  | .ok _ =>
    let b1 : Bank := ⟨dictModify b.accounts account
      (fun acc => { acc with balance := acc.balance - amount })⟩
    let b2 := transaction_log b1 account "Withdrawal" amount time "Cash withdrawal"
    (b2, .ok { message := "✅ ₹" ++ toString amount ++ " has been successfully withdrawn.",
               balance := balanceOf b2 account })

/-- `Bank.transfer`.  Both log entries carry the single `time` drawn once in
the source. -/
def transfer (b : Bank) (account1 account2 : String) (pin amount : Int) (time : Nat) :
    Bank × Except BankError TransferResult :=
  match validate_account b account1 with
  | .error e => (b, .error e)
  | .ok _ =>
  match validate_account b account2 with
  | .error e => (b, .error e)
  | .ok _ =>
  match validate_pin b account1 pin with
  | .error e => (b, .error e)
  | .ok _ =>
  match validate_amount amount with
  | .error e => (b, .error e)
  | .ok _ =>
  match validate_balance b account1 amount with
  | .error e => (b, .error e)
  | .ok _ =>
    let b1 : Bank := ⟨dictModify b.accounts account1
      (fun acc => { acc with balance := acc.balance - amount })⟩
    let b2 : Bank := ⟨dictModify b1.accounts account2
      (fun acc => { acc with balance := acc.balance + amount })⟩
    let b3 := transaction_log b2 account1 ("Transfer to " ++ account2) amount time "Cash transfer"
    let b4 := transaction_log b3 account2 ("Transfer from " ++ account1) amount time "Cash transfer"
    (b4, .ok { message := "✅ ₹" ++ toString amount ++ " has been successfully transferred from "
                 ++ account1 ++ " to " ++ account2 ++ ".",
               balance_from := balanceOf b4 account1,
               balance_to := balanceOf b4 account2 })

/-- `str(date)` as PrettyTable renders the stored date of birth. -/
def dateStr (d : Date) : String :=
  zfill (toString d.year) 4 ++ "-" ++ zfill (toString d.month) 2 ++ "-" ++ zfill (toString d.day) 2

/-- `Bank.display_account_info`: the rows of the PrettyTable, as
(field, value) pairs.  The method only reads the registry. -/
def display_account_info (b : Bank) (account : String) (pin : Int) :
    Bank × Except BankError (List (String × String)) :=
  (b,
    match validate_account b account with
    | .error e => .error e
    | .ok _ =>
    match validate_pin b account pin with
    | .error e => .error e
    | .ok _ =>
      match dictGet? b.accounts account with
      | some acc =>
          .ok [("Account Number", account),
               ("Account Holder", acc.account_holder),
               ("Balance", "₹" ++ toString acc.balance),
               ("Date of Birth", dateStr acc.dob)]
      | none => .ok [])

/-- `Bank.display_balance`. -/
def display_balance (b : Bank) (account : String) (pin : Int) :
    Bank × Except BankError OpResult :=
  (b,
    match validate_account b account with
    | .error e => .error e
    | .ok _ =>
    match validate_pin b account pin with
    | .error e => .error e
    | .ok _ =>
      .ok { balance := balanceOf b account,
            message := "💰 Your current balance is: ₹" ++ toString (balanceOf b account) })

/-- `Bank.display_transaction_history`: the rows of the PrettyTable, one
(type, amount, time, note) tuple per logged transaction, oldest first (the
`strftime` string rendering of the abstract timestamp is not modelled). -/
def display_transaction_history (b : Bank) (account : String) (pin : Int) :
    Bank × Except BankError (List (String × Int × Nat × String)) :=
  (b,
    match validate_account b account with
    | .error e => .error e
    | .ok _ =>
    match validate_pin b account pin with
    | .error e => .error e
    | .ok _ =>
      match dictGet? b.accounts account with
      | some acc =>
          .ok (acc.transaction_history.map (fun t => (t.type, t.amount, t.time, t.note)))
      | none => .ok [])


/-- MIN_BALANCE holds at every account the registry resolves
(the balance invariant of the spec's data model). -/
def inv_balance (b : Bank) : Prop :=
  ∀ a acc, dictGet? b.accounts a = some acc → MIN_BALANCE ≤ acc.balance

/-- A stored transaction record of one of the four kinds the spec enumerates
(Deposit, Withdrawal, Transfer-out, Transfer-in), with positive amount. -/
def valid_txn (t : Transaction) : Prop :=
  (t.type = "Deposit" ∨ t.type = "Withdrawal" ∨
    (∃ s, t.type = "Transfer to " ++ s) ∨ (∃ s, t.type = "Transfer from " ++ s)) ∧
  0 < t.amount

/-- Every transaction in every account the registry resolves is valid. -/
def inv_txns (b : Bank) : Prop :=
  ∀ a acc, dictGet? b.accounts a = some acc → ∀ t ∈ acc.transaction_history, valid_txn t

/-- A concrete account used to instantiate the theorems below. -/
def aliceAcc : Account :=
  { account_holder := "Alice", balance := 500,
    transaction_history := [⟨"Deposit", 500, 0, "Opening balance"⟩],
    creation_time := 0, dob := ⟨1995, 5, 12⟩, pin := 1234 }

/-- A second concrete account. -/
def bobAcc : Account :=
  { account_holder := "Bob", balance := 1000,
    transaction_history := [⟨"Deposit", 1000, 0, "Opening balance"⟩],
    creation_time := 0, dob := ⟨1988, 9, 23⟩, pin := 4321 }

/-- A concrete two-account ledger. -/
def testBank : Bank := ⟨[("2304060001", aliceAcc), ("2304060002", bobAcc)]⟩

/-- The ledger state after `account_creation ⟨[]⟩ "Alice" 500 "1995-05-12"
(some 1234) ⟨2026,10,12⟩ 3 [17] 42`. -/
def newBank : Bank :=
  ⟨[("2304060017",
     { account_holder := "Alice", balance := 500,
       transaction_history := [⟨"Deposit", 500, 3, "Opening balance"⟩],
       creation_time := 3, dob := ⟨1995, 5, 12⟩, pin := 1234 })]⟩

/-- The result of that `account_creation` call. -/
def newResult : CreationResult :=
  { account_number := "2304060017", pin := 1234,
    message := "✅ Account created successfully!" }

end Bank
namespace Bank

theorem dictGet?_dictModify (l : List (String × Account)) (k : String)
    (f : Account → Account) (j : String) :
    dictGet? (dictModify l k f) j =
      if j = k then (dictGet? l k).map f else dictGet? l j := by
  induction l with
  | nil => simp [dictModify, dictGet?]
  | cons p rest ih =>
      obtain ⟨k', v⟩ := p
      simp only [dictModify]
      by_cases h1 : k' = k
      · subst h1
        simp only [if_pos rfl]
        by_cases h2 : k' = j
        · subst h2; simp [dictGet?]
        · have h2' : ¬(j = k') := fun h => h2 h.symm
          simp [dictGet?, h2, h2']
      · simp only [if_neg h1]
        by_cases h2 : k' = j
        · subst h2
          have h2' : ¬(k' = k) := h1
          simp [dictGet?, h2']
        · have h1' : ¬(k' = k) := h1
          simp [dictGet?, h2, ih, h1']

theorem dictGet?_dictSet (l : List (String × Account)) (k : String)
    (v : Account) (j : String) :
    dictGet? (dictSet l k v) j = if j = k then some v else dictGet? l j := by
  induction l with
  | nil =>
      by_cases h : k = j
      · subst h; simp [dictSet, dictGet?]
      · have h' : ¬(j = k) := fun h2 => h h2.symm
        simp [dictSet, dictGet?, h, h']
  | cons p rest ih =>
      obtain ⟨k', v'⟩ := p
      simp only [dictSet]
      by_cases h1 : k' = k
      · subst h1
        simp only [if_pos rfl]
        by_cases h2 : k' = j
        · subst h2; simp [dictGet?]
        · have h2' : ¬(j = k') := fun h => h2 h.symm
          simp [dictGet?, h2, h2']
      · simp only [if_neg h1]
        by_cases h2 : k' = j
        · subst h2
          have h1' : ¬(k' = k) := h1
          simp [dictGet?, h1']
        · have h1' : ¬(k' = k) := h1
          simp [dictGet?, h2, ih, h1']

theorem dictModify_dictModify (l : List (String × Account)) (k : String)
    (f g : Account → Account) :
    dictModify (dictModify l k f) k g = dictModify l k (fun x => g (f x)) := by
  induction l with
  | nil => simp [dictModify]
  | cons p rest ih =>
      obtain ⟨k', v⟩ := p
      by_cases h1 : k' = k
      · subst h1; simp [dictModify]
      · simp [dictModify, h1, ih]

theorem dictModify_comm (l : List (String × Account)) (k1 k2 : String)
    (f g : Account → Account) (h : k1 ≠ k2) :
    dictModify (dictModify l k1 f) k2 g = dictModify (dictModify l k2 g) k1 f := by
  induction l with
  | nil => simp [dictModify]
  | cons p rest ih =>
      obtain ⟨k', v⟩ := p
      by_cases h1 : k' = k1
      · subst h1
        simp [dictModify, h, fun h2 : k' = k2 => h (h2 : k' = k2)]
      · by_cases h2 : k' = k2
        · subst h2
          simp [dictModify, h1, Ne.symm h]
        · simp [dictModify, h1, h2, ih]

end Bank

namespace Bank

theorem validate_account_none {b : Bank} {a : String}
    (h : dictGet? b.accounts a = none) :
    validate_account b a = .error (.AccountNotFound "Account not found") := by
  simp [validate_account, h]

theorem validate_account_some {b : Bank} {a : String} {acc : Account}
    (h : dictGet? b.accounts a = some acc) : validate_account b a = .ok () := by
  simp [validate_account, h]

theorem validate_pin_ok {b : Bank} {a : String} {acc : Account} {pin : Int}
    (h : dictGet? b.accounts a = some acc) (hp : pin = acc.pin) :
    validate_pin b a pin = .ok () := by
  simp [validate_pin, h, hp]

theorem validate_pin_bad {b : Bank} {a : String} {acc : Account} {pin : Int}
    (h : dictGet? b.accounts a = some acc) (hp : pin ≠ acc.pin) :
    validate_pin b a pin = .error (.InvalidPinError "Invalid Pin") := by
  simp [validate_pin, h, hp]

theorem validate_amount_pos {amount : Int} (h : 0 < amount) :
    validate_amount amount = .ok () := by
  simp [validate_amount]
  omega

theorem validate_amount_nonpos {amount : Int} (h : amount ≤ 0) :
    validate_amount amount =
      .error (.InvalidAmountError "Amount for deposit/withdrawal/transfer should be greater than 0") := by
  simp [validate_amount, h]

theorem validate_balance_ok {b : Bank} {a : String} {acc : Account} {amount : Int}
    (h : dictGet? b.accounts a = some acc) (hb : MIN_BALANCE ≤ acc.balance - amount) :
    validate_balance b a amount = .ok () := by
  simp [validate_balance, h, not_lt.mpr hb]

theorem validate_balance_bad {b : Bank} {a : String} {acc : Account} {amount : Int}
    (h : dictGet? b.accounts a = some acc) (hb : acc.balance - amount < MIN_BALANCE) :
    validate_balance b a amount =
      .error (.InsufficientBalanceError
        ("Balance after withdrawal/transfer should be more than ₹" ++ toString MIN_BALANCE)) := by
  simp [validate_balance, h, hb]

theorem generate_pin_range (r : Nat) :
    1000 ≤ generate_pin r ∧ generate_pin r ≤ 9999 := by
  unfold generate_pin
  have := Nat.mod_lt r (show 0 < 9000 by norm_num)
  omega

theorem effective_pin_range (pin : Option Int) (s : Nat) :
    1000 ≤ effective_pin pin s ∧ effective_pin pin s ≤ 9999 := by
  match pin with
  | none => exact generate_pin_range s
  | some p =>
      by_cases h : 1000 ≤ p ∧ p ≤ 9999
      · simp [effective_pin, h]
      · simpa [effective_pin, h] using generate_pin_range s

theorem effective_pin_of_valid {p : Int} (s : Nat) (h1 : 1000 ≤ p) (h2 : p ≤ 9999) :
    effective_pin (some p) s = p := by
  simp [effective_pin, h1, h2]

theorem generate_account_number_fresh {b : Bank} {rs : List Nat} {n : String}
    (h : generate_account_number b rs = some n) : dictGet? b.accounts n = none := by
  induction rs with
  | nil => simp [generate_account_number] at h
  | cons r rs ih =>
      rw [generate_account_number] at h
      by_cases hc : (dictGet? b.accounts (ACCOUNT_PREFIX ++ zfill (toString (r % 10000)) 4)).isNone
      · simp only [if_pos hc] at h
        cases h
        exact Option.isNone_iff_eq_none.mp hc
      · simp only [if_neg hc] at h
        exact ih h

end Bank

namespace Bank

theorem deposit_not_found {b : Bank} {account : String} {pin amount : Int} {time : Nat}
    (h : dictGet? b.accounts account = none) :
    deposit b account pin amount time = (b, .error (.AccountNotFound "Account not found")) := by
  simp [deposit, validate_account_none h]

theorem deposit_bad_pin {b : Bank} {account : String} {pin amount : Int} {time : Nat}
    {acc : Account} (h : dictGet? b.accounts account = some acc) (hp : pin ≠ acc.pin) :
    deposit b account pin amount time = (b, .error (.InvalidPinError "Invalid Pin")) := by
  simp [deposit, validate_account_some h, validate_pin_bad h hp]

theorem deposit_bad_amount {b : Bank} {account : String} {pin amount : Int} {time : Nat}
    {acc : Account} (h : dictGet? b.accounts account = some acc) (hp : pin = acc.pin)
    (ha : amount ≤ 0) :
    deposit b account pin amount time =
      (b, .error (.InvalidAmountError "Amount for deposit/withdrawal/transfer should be greater than 0")) := by
  simp [deposit, validate_account_some h, validate_pin_ok h hp, validate_amount_nonpos ha]

theorem deposit_success {b : Bank} {account : String} {pin amount : Int} {time : Nat}
    {acc : Account} (h : dictGet? b.accounts account = some acc) (hp : pin = acc.pin)
    (ha : 0 < amount) :
    deposit b account pin amount time =
      (⟨dictModify b.accounts account (fun x =>
          { x with balance := x.balance + amount,
                   transaction_history := x.transaction_history ++
                     [⟨"Deposit", amount, time, "Cash deposit"⟩] })⟩,
       .ok { message := "✅ ₹" ++ toString amount ++ " has been successfully deposited.",
             balance := acc.balance + amount }) := by
  simp only [deposit, validate_account_some h, validate_pin_ok h hp, validate_amount_pos ha,
    transaction_log, dictModify_dictModify, balanceOf, dictGet?_dictModify, if_pos rfl, h,
    Option.map_some, Option.getD_some]
  simp

end Bank

namespace Bank

theorem withdrawal_not_found {b : Bank} {account : String} {pin amount : Int} {time : Nat}
    (h : dictGet? b.accounts account = none) :
    withdrawal b account pin amount time = (b, .error (.AccountNotFound "Account not found")) := by
  simp [withdrawal, validate_account_none h]

theorem withdrawal_bad_pin {b : Bank} {account : String} {pin amount : Int} {time : Nat}
    {acc : Account} (h : dictGet? b.accounts account = some acc) (hp : pin ≠ acc.pin) :
    withdrawal b account pin amount time = (b, .error (.InvalidPinError "Invalid Pin")) := by
  simp [withdrawal, validate_account_some h, validate_pin_bad h hp]

theorem withdrawal_bad_amount {b : Bank} {account : String} {pin amount : Int} {time : Nat}
    {acc : Account} (h : dictGet? b.accounts account = some acc) (hp : pin = acc.pin)
    (ha : amount ≤ 0) :
    withdrawal b account pin amount time =
      (b, .error (.InvalidAmountError "Amount for deposit/withdrawal/transfer should be greater than 0")) := by
  simp [withdrawal, validate_account_some h, validate_pin_ok h hp, validate_amount_nonpos ha]

theorem withdrawal_insufficient {b : Bank} {account : String} {pin amount : Int} {time : Nat}
    {acc : Account} (h : dictGet? b.accounts account = some acc) (hp : pin = acc.pin)
    (ha : 0 < amount) (hb : acc.balance - amount < MIN_BALANCE) :
    withdrawal b account pin amount time =
      (b, .error (.InsufficientBalanceError
        ("Balance after withdrawal/transfer should be more than ₹" ++ toString MIN_BALANCE))) := by
  simp [withdrawal, validate_account_some h, validate_pin_ok h hp, validate_amount_pos ha,
    validate_balance_bad h hb]

theorem withdrawal_success {b : Bank} {account : String} {pin amount : Int} {time : Nat}
    {acc : Account} (h : dictGet? b.accounts account = some acc) (hp : pin = acc.pin)
    (ha : 0 < amount) (hb : MIN_BALANCE ≤ acc.balance - amount) :
    withdrawal b account pin amount time =
      (⟨dictModify b.accounts account (fun x =>
          { x with balance := x.balance - amount,
                   transaction_history := x.transaction_history ++
                     [⟨"Withdrawal", amount, time, "Cash withdrawal"⟩] })⟩,
       .ok { message := "✅ ₹" ++ toString amount ++ " has been successfully withdrawn.",
             balance := acc.balance - amount }) := by
  simp only [withdrawal, validate_account_some h, validate_pin_ok h hp, validate_amount_pos ha,
    validate_balance_ok h hb, transaction_log, dictModify_dictModify, balanceOf,
    dictGet?_dictModify, if_pos rfl, h, Option.map_some, Option.getD_some]
  simp

theorem transfer_not_found_src {b : Bank} {a1 a2 : String} {pin amount : Int} {time : Nat}
    (h : dictGet? b.accounts a1 = none) :
    transfer b a1 a2 pin amount time = (b, .error (.AccountNotFound "Account not found")) := by
  simp [transfer, validate_account_none h]

theorem transfer_not_found_dst {b : Bank} {a1 a2 : String} {pin amount : Int} {time : Nat}
    {acc1 : Account} (h1 : dictGet? b.accounts a1 = some acc1)
    (h2 : dictGet? b.accounts a2 = none) :
    transfer b a1 a2 pin amount time = (b, .error (.AccountNotFound "Account not found")) := by
  simp [transfer, validate_account_some h1, validate_account_none h2]

theorem transfer_bad_pin {b : Bank} {a1 a2 : String} {pin amount : Int} {time : Nat}
    {acc1 acc2 : Account} (h1 : dictGet? b.accounts a1 = some acc1)
    (h2 : dictGet? b.accounts a2 = some acc2) (hp : pin ≠ acc1.pin) :
    transfer b a1 a2 pin amount time = (b, .error (.InvalidPinError "Invalid Pin")) := by
  simp [transfer, validate_account_some h1, validate_account_some h2, validate_pin_bad h1 hp]

theorem transfer_bad_amount {b : Bank} {a1 a2 : String} {pin amount : Int} {time : Nat}
    {acc1 acc2 : Account} (h1 : dictGet? b.accounts a1 = some acc1)
    (h2 : dictGet? b.accounts a2 = some acc2) (hp : pin = acc1.pin) (ha : amount ≤ 0) :
    transfer b a1 a2 pin amount time =
      (b, .error (.InvalidAmountError "Amount for deposit/withdrawal/transfer should be greater than 0")) := by
  simp [transfer, validate_account_some h1, validate_account_some h2, validate_pin_ok h1 hp,
    validate_amount_nonpos ha]

theorem transfer_insufficient {b : Bank} {a1 a2 : String} {pin amount : Int} {time : Nat}
    {acc1 acc2 : Account} (h1 : dictGet? b.accounts a1 = some acc1)
    (h2 : dictGet? b.accounts a2 = some acc2) (hp : pin = acc1.pin) (ha : 0 < amount)
    (hb : acc1.balance - amount < MIN_BALANCE) :
    transfer b a1 a2 pin amount time =
      (b, .error (.InsufficientBalanceError
        ("Balance after withdrawal/transfer should be more than ₹" ++ toString MIN_BALANCE))) := by
  simp [transfer, validate_account_some h1, validate_account_some h2, validate_pin_ok h1 hp,
    validate_amount_pos ha, validate_balance_bad h1 hb]

theorem transfer_success_ne {b : Bank} {a1 a2 : String} {pin amount : Int} {time : Nat}
    {acc1 acc2 : Account} (hne : a1 ≠ a2)
    (h1 : dictGet? b.accounts a1 = some acc1) (h2 : dictGet? b.accounts a2 = some acc2)
    (hp : pin = acc1.pin) (ha : 0 < amount) (hb : MIN_BALANCE ≤ acc1.balance - amount) :
    transfer b a1 a2 pin amount time =
      (⟨dictModify (dictModify b.accounts a1 (fun x =>
          { x with balance := x.balance - amount,
                   transaction_history := x.transaction_history ++
                     [⟨"Transfer to " ++ a2, amount, time, "Cash transfer"⟩] })) a2 (fun x =>
          { x with balance := x.balance + amount,
                   transaction_history := x.transaction_history ++
                     [⟨"Transfer from " ++ a1, amount, time, "Cash transfer"⟩] })⟩,
       .ok { message := "✅ ₹" ++ toString amount ++ " has been successfully transferred from "
               ++ a1 ++ " to " ++ a2 ++ ".",
             balance_from := acc1.balance - amount,
             balance_to := acc2.balance + amount }) := by
  have hne' : ¬(a1 = a2) := hne
  have hne'' : ¬(a2 = a1) := fun h => hne h.symm
  simp only [transfer, validate_account_some h1, validate_account_some h2,
    validate_pin_ok h1 hp, validate_amount_pos ha, validate_balance_ok h1 hb,
    transaction_log]
  rw [dictModify_comm _ a2 a1 _ _ (Ne.symm hne)]
  simp only [dictModify_dictModify, balanceOf, dictGet?_dictModify, if_pos rfl,
    if_neg hne', if_neg hne'', h1, h2, Option.map_some, Option.getD_some]
  simp

theorem transfer_success_self {b : Bank} {a : String} {pin amount : Int} {time : Nat}
    {acc : Account} (h : dictGet? b.accounts a = some acc)
    (hp : pin = acc.pin) (ha : 0 < amount) (hb : MIN_BALANCE ≤ acc.balance - amount) :
    transfer b a a pin amount time =
      (⟨dictModify b.accounts a (fun x =>
          { x with balance := x.balance - amount + amount,
                   transaction_history := x.transaction_history ++
                     [⟨"Transfer to " ++ a, amount, time, "Cash transfer"⟩,
                      ⟨"Transfer from " ++ a, amount, time, "Cash transfer"⟩] })⟩,
       .ok { message := "✅ ₹" ++ toString amount ++ " has been successfully transferred from "
               ++ a ++ " to " ++ a ++ ".",
             balance_from := acc.balance - amount + amount,
             balance_to := acc.balance - amount + amount }) := by
  simp only [transfer, validate_account_some h, validate_pin_ok h hp,
    validate_amount_pos ha, validate_balance_ok h hb, transaction_log,
    dictModify_dictModify, balanceOf, dictGet?_dictModify, if_pos rfl, h,
    Option.map_some, Option.getD_some]
  simp

end Bank

namespace Bank

theorem account_creation_limit {b : Bank} {name : String} {balance : Int} {dob : String}
    {pin : Option Int} {today : Date} {now : Nat} {acctSeeds : List Nat} {pinSeed : Nat}
    (hlen : b.accounts.length = MAX_ACCOUNTS) :
    account_creation b name balance dob pin today now acctSeeds pinSeed =
      some (b, .error (.LimitError "Total account limit reached. Unable to create a new account.")) := by
  simp [account_creation, hlen]

theorem account_creation_bad_date {b : Bank} {name : String} {balance : Int} {dob : String}
    {pin : Option Int} {today : Date} {now : Nat} {acctSeeds : List Nat} {pinSeed : Nat}
    (hlen : b.accounts.length ≠ MAX_ACCOUNTS) (hd : strptime_date dob = none) :
    account_creation b name balance dob pin today now acctSeeds pinSeed =
      some (b, .error (.InvalidDateFormatError "Invalid date format. Please use YYYY-MM-DD.")) := by
  simp [account_creation, hlen, hd]

theorem account_creation_bad_age {b : Bank} {name : String} {balance : Int} {dob : String}
    {pin : Option Int} {today : Date} {now : Nat} {acctSeeds : List Nat} {pinSeed : Nat}
    {dob_date : Date} (hlen : b.accounts.length ≠ MAX_ACCOUNTS)
    (hd : strptime_date dob = some dob_date)
    (hage : ¬(MIN_AGE ≤ computed_age today dob_date ∧ computed_age today dob_date ≤ MAX_AGE)) :
    account_creation b name balance dob pin today now acctSeeds pinSeed =
      some (b, .error (.InvalidAgeError
        ("Sorry account creation is only allowed between the ages of " ++
          toString MIN_AGE ++ " and " ++ toString MAX_AGE))) := by
  simp [account_creation, hlen, hd, hage]

theorem account_creation_low_balance {b : Bank} {name : String} {balance : Int} {dob : String}
    {pin : Option Int} {today : Date} {now : Nat} {acctSeeds : List Nat} {pinSeed : Nat}
    {dob_date : Date} (hlen : b.accounts.length ≠ MAX_ACCOUNTS)
    (hd : strptime_date dob = some dob_date)
    (hage : MIN_AGE ≤ computed_age today dob_date ∧ computed_age today dob_date ≤ MAX_AGE)
    (hbal : balance < MIN_BALANCE) :
    account_creation b name balance dob pin today now acctSeeds pinSeed =
      some (b, .error (.InvalidAmountError
        ("Opening balance must be at least ₹" ++ toString MIN_BALANCE ++ "."))) := by
  simp [account_creation, hlen, hd, hage.1, hage.2, hbal]

theorem account_creation_no_number {b : Bank} {name : String} {balance : Int} {dob : String}
    {pin : Option Int} {today : Date} {now : Nat} {acctSeeds : List Nat} {pinSeed : Nat}
    {dob_date : Date} (hlen : b.accounts.length ≠ MAX_ACCOUNTS)
    (hd : strptime_date dob = some dob_date)
    (hage : MIN_AGE ≤ computed_age today dob_date ∧ computed_age today dob_date ≤ MAX_AGE)
    (hbal : MIN_BALANCE ≤ balance)
    (hn : generate_account_number b acctSeeds = none) :
    account_creation b name balance dob pin today now acctSeeds pinSeed = none := by
  simp [account_creation, hlen, hd, hage.1, hage.2, not_lt.mpr hbal, hn]

theorem account_creation_success {b : Bank} {name : String} {balance : Int} {dob : String}
    {pin : Option Int} {today : Date} {now : Nat} {acctSeeds : List Nat} {pinSeed : Nat}
    {dob_date : Date} {n : String} (hlen : b.accounts.length ≠ MAX_ACCOUNTS)
    (hd : strptime_date dob = some dob_date)
    (hage : MIN_AGE ≤ computed_age today dob_date ∧ computed_age today dob_date ≤ MAX_AGE)
    (hbal : MIN_BALANCE ≤ balance)
    (hn : generate_account_number b acctSeeds = some n) :
    account_creation b name balance dob pin today now acctSeeds pinSeed =
      some (⟨dictSet b.accounts n
        { account_holder := name, balance := balance,
          transaction_history := [⟨"Deposit", balance, now, "Opening balance"⟩],
          creation_time := now, dob := dob_date, pin := effective_pin pin pinSeed }⟩,
        .ok { account_number := n, pin := effective_pin pin pinSeed,
              message := "✅ Account created successfully!" }) := by
  simp [account_creation, hlen, hd, hage.1, hage.2, not_lt.mpr hbal, hn]

end Bank

namespace Bank

theorem deposit_spec (b : Bank) (account : String) (pin amount : Int) (time : Nat) :
    (∃ e, deposit b account pin amount time = (b, .error e)) ∨
    (∃ acc, dictGet? b.accounts account = some acc ∧ pin = acc.pin ∧ 0 < amount ∧
       deposit b account pin amount time =
         (⟨dictModify b.accounts account (fun x =>
             { x with balance := x.balance + amount,
                      transaction_history := x.transaction_history ++
                        [⟨"Deposit", amount, time, "Cash deposit"⟩] })⟩,
          .ok { message := "✅ ₹" ++ toString amount ++ " has been successfully deposited.",
                balance := acc.balance + amount })) := by
  cases hg : dictGet? b.accounts account with
  | none => exact .inl ⟨_, deposit_not_found hg⟩
  | some acc =>
      by_cases hp : pin = acc.pin
      · by_cases ha : 0 < amount
        · exact .inr ⟨acc, rfl, hp, ha, deposit_success hg hp ha⟩
        · exact .inl ⟨_, deposit_bad_amount hg hp (not_lt.mp ha)⟩
      · exact .inl ⟨_, deposit_bad_pin hg hp⟩

theorem withdrawal_spec (b : Bank) (account : String) (pin amount : Int) (time : Nat) :
    (∃ e, withdrawal b account pin amount time = (b, .error e)) ∨
    (∃ acc, dictGet? b.accounts account = some acc ∧ pin = acc.pin ∧ 0 < amount ∧
       MIN_BALANCE ≤ acc.balance - amount ∧
       withdrawal b account pin amount time =
         (⟨dictModify b.accounts account (fun x =>
             { x with balance := x.balance - amount,
                      transaction_history := x.transaction_history ++
                        [⟨"Withdrawal", amount, time, "Cash withdrawal"⟩] })⟩,
          .ok { message := "✅ ₹" ++ toString amount ++ " has been successfully withdrawn.",
                balance := acc.balance - amount })) := by
  cases hg : dictGet? b.accounts account with
  | none => exact .inl ⟨_, withdrawal_not_found hg⟩
  | some acc =>
      by_cases hp : pin = acc.pin
      · by_cases ha : 0 < amount
        · by_cases hb : MIN_BALANCE ≤ acc.balance - amount
          · exact .inr ⟨acc, rfl, hp, ha, hb, withdrawal_success hg hp ha hb⟩
          · exact .inl ⟨_, withdrawal_insufficient hg hp ha (not_le.mp hb)⟩
        · exact .inl ⟨_, withdrawal_bad_amount hg hp (not_lt.mp ha)⟩
      · exact .inl ⟨_, withdrawal_bad_pin hg hp⟩

theorem transfer_spec (b : Bank) (a1 a2 : String) (pin amount : Int) (time : Nat) :
    (∃ e, transfer b a1 a2 pin amount time = (b, .error e)) ∨
    (a1 ≠ a2 ∧ ∃ acc1 acc2, dictGet? b.accounts a1 = some acc1 ∧
       dictGet? b.accounts a2 = some acc2 ∧ pin = acc1.pin ∧ 0 < amount ∧
       MIN_BALANCE ≤ acc1.balance - amount ∧
       transfer b a1 a2 pin amount time =
         (⟨dictModify (dictModify b.accounts a1 (fun x =>
             { x with balance := x.balance - amount,
                      transaction_history := x.transaction_history ++
                        [⟨"Transfer to " ++ a2, amount, time, "Cash transfer"⟩] })) a2 (fun x =>
             { x with balance := x.balance + amount,
                      transaction_history := x.transaction_history ++
                        [⟨"Transfer from " ++ a1, amount, time, "Cash transfer"⟩] })⟩,
          .ok { message := "✅ ₹" ++ toString amount ++ " has been successfully transferred from "
                  ++ a1 ++ " to " ++ a2 ++ ".",
                balance_from := acc1.balance - amount,
                balance_to := acc2.balance + amount })) ∨
    (a1 = a2 ∧ ∃ acc, dictGet? b.accounts a1 = some acc ∧ pin = acc.pin ∧ 0 < amount ∧
       MIN_BALANCE ≤ acc.balance - amount ∧
       transfer b a1 a2 pin amount time =
         (⟨dictModify b.accounts a1 (fun x =>
             { x with balance := x.balance - amount + amount,
                      transaction_history := x.transaction_history ++
                        [⟨"Transfer to " ++ a1, amount, time, "Cash transfer"⟩,
                         ⟨"Transfer from " ++ a1, amount, time, "Cash transfer"⟩] })⟩,
          .ok { message := "✅ ₹" ++ toString amount ++ " has been successfully transferred from "
                  ++ a1 ++ " to " ++ a1 ++ ".",
                balance_from := acc.balance - amount + amount,
                balance_to := acc.balance - amount + amount })) := by
  cases hg1 : dictGet? b.accounts a1 with
  | none => exact .inl ⟨_, transfer_not_found_src hg1⟩
  | some acc1 =>
      cases hg2 : dictGet? b.accounts a2 with
      | none => exact .inl ⟨_, transfer_not_found_dst hg1 hg2⟩
      | some acc2 =>
          by_cases hp : pin = acc1.pin
          · by_cases ha : 0 < amount
            · by_cases hb : MIN_BALANCE ≤ acc1.balance - amount
              · by_cases hne : a1 = a2
                · subst hne
                  exact .inr (.inr ⟨rfl, acc1, rfl, hp, ha, hb, transfer_success_self hg1 hp ha hb⟩)
                · exact .inr (.inl ⟨hne, acc1, acc2, rfl, rfl, hp, ha, hb,
                    transfer_success_ne hne hg1 hg2 hp ha hb⟩)
              · exact .inl ⟨_, transfer_insufficient hg1 hg2 hp ha (not_le.mp hb)⟩
            · exact .inl ⟨_, transfer_bad_amount hg1 hg2 hp (not_lt.mp ha)⟩
          · exact .inl ⟨_, transfer_bad_pin hg1 hg2 hp⟩

theorem account_creation_spec (b : Bank) (name : String) (balance : Int) (dob : String)
    (pin : Option Int) (today : Date) (now : Nat) (acctSeeds : List Nat) (pinSeed : Nat) :
    (∃ e, account_creation b name balance dob pin today now acctSeeds pinSeed =
       some (b, .error e)) ∨
    (account_creation b name balance dob pin today now acctSeeds pinSeed = none) ∨
    (∃ dob_date n, strptime_date dob = some dob_date ∧
       MIN_BALANCE ≤ balance ∧
       generate_account_number b acctSeeds = some n ∧
       dictGet? b.accounts n = none ∧
       account_creation b name balance dob pin today now acctSeeds pinSeed =
         some (⟨dictSet b.accounts n
           { account_holder := name, balance := balance,
             transaction_history := [⟨"Deposit", balance, now, "Opening balance"⟩],
             creation_time := now, dob := dob_date, pin := effective_pin pin pinSeed }⟩,
           .ok { account_number := n, pin := effective_pin pin pinSeed,
                 message := "✅ Account created successfully!" })) := by
  by_cases hlen : b.accounts.length = MAX_ACCOUNTS
  · exact .inl ⟨_, account_creation_limit hlen⟩
  · cases hd : strptime_date dob with
    | none => exact .inl ⟨_, account_creation_bad_date hlen hd⟩
    | some dob_date =>
        by_cases hage : MIN_AGE ≤ computed_age today dob_date ∧
            computed_age today dob_date ≤ MAX_AGE
        · by_cases hbal : balance < MIN_BALANCE
          · exact .inl ⟨_, account_creation_low_balance hlen hd hage hbal⟩
          · cases hn : generate_account_number b acctSeeds with
            | none => exact .inr (.inl (account_creation_no_number hlen hd hage (not_lt.mp hbal) hn))
            | some n =>
                exact .inr (.inr ⟨dob_date, n, rfl, not_lt.mp hbal, rfl,
                  generate_account_number_fresh hn,
                  account_creation_success hlen hd hage (not_lt.mp hbal) hn⟩)
        · exact .inl ⟨_, account_creation_bad_age hlen hd hage⟩

end Bank

namespace Bank

theorem dictGet?_modified {l : List (String × Account)} {k : String}
    {f : Account → Account} {j : String} {acc' : Account}
    (h : dictGet? (dictModify l k f) j = some acc') :
    (j = k ∧ ∃ acc, dictGet? l k = some acc ∧ acc' = f acc) ∨
    (j ≠ k ∧ dictGet? l j = some acc') := by
  rw [dictGet?_dictModify] at h
  by_cases hj : j = k
  · rw [if_pos hj] at h
    cases hc : dictGet? l k with
    | none => rw [hc] at h; simp at h
    | some acc =>
        rw [hc] at h
        simp only [Option.map_some', Option.some.injEq] at h
        exact .inl ⟨hj, acc, rfl, h.symm⟩
  · rw [if_neg hj] at h
    exact .inr ⟨hj, h⟩

theorem dictGet?_inserted {l : List (String × Account)} {k : String}
    {v : Account} {j : String} {acc' : Account}
    (h : dictGet? (dictSet l k v) j = some acc') :
    (j = k ∧ acc' = v) ∨ (j ≠ k ∧ dictGet? l j = some acc') := by
  rw [dictGet?_dictSet] at h
  by_cases hj : j = k
  · rw [if_pos hj] at h
    simp only [Option.some.injEq] at h
    exact .inl ⟨hj, h.symm⟩
  · rw [if_neg hj] at h
    exact .inr ⟨hj, h⟩

/-- C1: for every account in the registry and every completed (non-failing)
public operation (account_creation, deposit, withdrawal, transfer), the
account's balance is at least MIN_BALANCE (100) afterwards, provided every
balance was at least 100 before. -/
theorem C1_min_balance_invariant (b : Bank) (hinv : inv_balance b) :
    (∀ name balance dob pin today now acctSeeds pinSeed b' r,
        account_creation b name balance dob pin today now acctSeeds pinSeed = some (b', .ok r) →
        inv_balance b') ∧
    (∀ account pin amount time b' r,
        deposit b account pin amount time = (b', .ok r) → inv_balance b') ∧
    (∀ account pin amount time b' r,
        withdrawal b account pin amount time = (b', .ok r) → inv_balance b') ∧
    (∀ a1 a2 pin amount time b' r,
        transfer b a1 a2 pin amount time = (b', .ok r) → inv_balance b') := by
  refine ⟨?_, ?_, ?_, ?_⟩
  · intro name balance dob pin today now acctSeeds pinSeed b' r h
    rcases account_creation_spec b name balance dob pin today now acctSeeds pinSeed with
      ⟨e, he⟩ | hnone | ⟨dob_date, n, hd, hbal, hn, hfresh, hs⟩
    · rw [he] at h; simp at h
    · rw [hnone] at h; simp at h
    · rw [hs] at h
      simp only [Option.some.injEq, Prod.mk.injEq] at h
      obtain ⟨hb', -⟩ := h
      subst hb'
      intro j acc' hget
      rcases dictGet?_inserted hget with ⟨hj, hacc⟩ | ⟨hj, hacc⟩
      · subst hacc; exact hbal
      · exact hinv j acc' hacc
  · intro account pin amount time b' r h
    rcases deposit_spec b account pin amount time with ⟨e, he⟩ | ⟨acc, hg, hp, ha, hs⟩
    · rw [he] at h; simp at h
    · rw [hs] at h
      simp only [Prod.mk.injEq] at h
      obtain ⟨hb', -⟩ := h
      subst hb'
      intro j acc' hget
      rcases dictGet?_modified hget with ⟨hj, acc0, hg0, hacc⟩ | ⟨hj, hacc⟩
      · subst hacc
        have h100 := hinv account acc0 hg0
        simp only [MIN_BALANCE] at h100 ⊢
        omega
      · exact hinv j acc' hacc
  · intro account pin amount time b' r h
    rcases withdrawal_spec b account pin amount time with ⟨e, he⟩ | ⟨acc, hg, hp, ha, hb, hs⟩
    · rw [he] at h; simp at h
    · rw [hs] at h
      simp only [Prod.mk.injEq] at h
      obtain ⟨hb', -⟩ := h
      subst hb'
      intro j acc' hget
      rcases dictGet?_modified hget with ⟨hj, acc0, hg0, hacc⟩ | ⟨hj, hacc⟩
      · subst hacc
        rw [hg] at hg0
        cases hg0
        exact hb
      · exact hinv j acc' hacc
  · intro a1 a2 pin amount time b' r h
    rcases transfer_spec b a1 a2 pin amount time with
      ⟨e, he⟩ | ⟨hne, acc1, acc2, hg1, hg2, hp, ha, hb, hs⟩ |
      ⟨heq, acc, hg, hp, ha, hb, hs⟩
    · rw [he] at h; simp at h
    · rw [hs] at h
      simp only [Prod.mk.injEq] at h
      obtain ⟨hb', -⟩ := h
      subst hb'
      intro j acc' hget
      rcases dictGet?_modified hget with ⟨hj2, acc0, hg0, hacc⟩ | ⟨hj2, hacc⟩
      · subst hacc
        rcases dictGet?_modified hg0 with ⟨hj1, acc3, hg3, hacc3⟩ | ⟨hj1, hacc3⟩
        · exact absurd hj1.symm hne
        · rw [hg2] at hacc3
          cases hacc3
          have h100 := hinv a2 acc2 hg2
          simp only [MIN_BALANCE] at h100 ⊢
          omega
      · rcases dictGet?_modified hacc with ⟨hj1, acc3, hg3, hacc3⟩ | ⟨hj1, hacc3⟩
        · subst hacc3
          rw [hg1] at hg3
          cases hg3
          exact hb
        · exact hinv j acc' hacc3
    · rw [hs] at h
      simp only [Prod.mk.injEq] at h
      obtain ⟨hb', -⟩ := h
      subst hb'
      intro j acc' hget
      rcases dictGet?_modified hget with ⟨hj, acc0, hg0, hacc⟩ | ⟨hj, hacc⟩
      · subst hacc
        rw [hg] at hg0
        cases hg0
        have h100 := hinv a1 acc hg
        simp only [MIN_BALANCE] at h100 ⊢
        omega
      · exact hinv j acc' hacc

end Bank

namespace Bank

/-- C2: whenever a public operation (account_creation, deposit, withdrawal,
transfer, or a query operation) fails with an error, the entire registry
state - accounts, balances, pins and transaction histories - is exactly as
it was before the call. -/
theorem C2_failure_leaves_state_unchanged :
    (∀ b name balance dob pin today now acctSeeds pinSeed b' e,
        account_creation b name balance dob pin today now acctSeeds pinSeed =
          some (b', .error e) → b' = b) ∧
    (∀ (b : Bank) account pin amount time e,
        (deposit b account pin amount time).2 = .error e →
        (deposit b account pin amount time).1 = b) ∧
    (∀ (b : Bank) account pin amount time e,
        (withdrawal b account pin amount time).2 = .error e →
        (withdrawal b account pin amount time).1 = b) ∧
    (∀ (b : Bank) a1 a2 pin amount time e,
        (transfer b a1 a2 pin amount time).2 = .error e →
        (transfer b a1 a2 pin amount time).1 = b) ∧
    (∀ (b : Bank) account pin e,
        (display_balance b account pin).2 = .error e →
        (display_balance b account pin).1 = b) ∧
    (∀ (b : Bank) account pin e,
        (display_account_info b account pin).2 = .error e →
        (display_account_info b account pin).1 = b) ∧
    (∀ (b : Bank) account pin e,
        (display_transaction_history b account pin).2 = .error e →
        (display_transaction_history b account pin).1 = b) := by
  refine ⟨?_, ?_, ?_, ?_, ?_, ?_, ?_⟩
  · intro b name balance dob pin today now acctSeeds pinSeed b' e h
    rcases account_creation_spec b name balance dob pin today now acctSeeds pinSeed with
      ⟨e', he⟩ | hnone | ⟨dob_date, n, hd, hbal, hn, hfresh, hs⟩
    · rw [he] at h
      simp only [Option.some.injEq, Prod.mk.injEq] at h
      exact h.1.symm
    · rw [hnone] at h; simp at h
    · rw [hs] at h; simp at h
  · intro b account pin amount time e h
    rcases deposit_spec b account pin amount time with ⟨e', he⟩ | ⟨acc, hg, hp, ha, hs⟩
    · rw [he]
    · rw [hs] at h; simp at h
  · intro b account pin amount time e h
    rcases withdrawal_spec b account pin amount time with ⟨e', he⟩ | ⟨acc, hg, hp, ha, hb, hs⟩
    · rw [he]
    · rw [hs] at h; simp at h
  · intro b a1 a2 pin amount time e h
    rcases transfer_spec b a1 a2 pin amount time with
      ⟨e', he⟩ | ⟨hne, acc1, acc2, hg1, hg2, hp, ha, hb, hs⟩ |
      ⟨heq, acc, hg, hp, ha, hb, hs⟩
    · rw [he]
    · rw [hs] at h; simp at h
    · rw [hs] at h; simp at h
  · intro b account pin e h; rfl
  · intro b account pin e h; rfl
  · intro b account pin e h; rfl

/-- C10: display_balance, display_account_info and display_transaction_history
never mutate the registry: the ledger after any such call (successful or
failing) is the ledger before it. -/
theorem C10_queries_readonly (b : Bank) (account : String) (pin : Int) :
    (display_balance b account pin).1 = b ∧
    (display_account_info b account pin).1 = b ∧
    (display_transaction_history b account pin).1 = b :=
  ⟨rfl, rfl, rfl⟩

end Bank

namespace Bank

/-- C4: deposit, withdrawal and transfer validate account existence first,
then pin, then amount positivity, then balance sufficiency, so the error
raised on an input with several violations is the one of the earliest
failing check. -/
theorem C4_validation_order :
    (∀ (b : Bank) account pin amount time,
        dictGet? b.accounts account = none →
        (deposit b account pin amount time).2 = .error (.AccountNotFound "Account not found")) ∧
    (∀ (b : Bank) account pin amount time acc,
        dictGet? b.accounts account = some acc → pin ≠ acc.pin →
        (deposit b account pin amount time).2 = .error (.InvalidPinError "Invalid Pin")) ∧
    (∀ (b : Bank) account pin amount time acc,
        dictGet? b.accounts account = some acc → pin = acc.pin → amount ≤ 0 →
        (deposit b account pin amount time).2 =
          .error (.InvalidAmountError "Amount for deposit/withdrawal/transfer should be greater than 0")) ∧
    (∀ (b : Bank) account pin amount time,
        dictGet? b.accounts account = none →
        (withdrawal b account pin amount time).2 = .error (.AccountNotFound "Account not found")) ∧
    (∀ (b : Bank) account pin amount time acc,
        dictGet? b.accounts account = some acc → pin ≠ acc.pin →
        (withdrawal b account pin amount time).2 = .error (.InvalidPinError "Invalid Pin")) ∧
    (∀ (b : Bank) account pin amount time acc,
        dictGet? b.accounts account = some acc → pin = acc.pin → amount ≤ 0 →
        (withdrawal b account pin amount time).2 =
          .error (.InvalidAmountError "Amount for deposit/withdrawal/transfer should be greater than 0")) ∧
    (∀ (b : Bank) account pin amount time acc,
        dictGet? b.accounts account = some acc → pin = acc.pin → 0 < amount →
        acc.balance - amount < MIN_BALANCE →
        (withdrawal b account pin amount time).2 =
          .error (.InsufficientBalanceError
            ("Balance after withdrawal/transfer should be more than ₹" ++ toString MIN_BALANCE))) ∧
    (∀ (b : Bank) a1 a2 pin amount time,
        dictGet? b.accounts a1 = none →
        (transfer b a1 a2 pin amount time).2 = .error (.AccountNotFound "Account not found")) ∧
    (∀ (b : Bank) a1 a2 pin amount time acc1,
        dictGet? b.accounts a1 = some acc1 → dictGet? b.accounts a2 = none →
        (transfer b a1 a2 pin amount time).2 = .error (.AccountNotFound "Account not found")) ∧
    (∀ (b : Bank) a1 a2 pin amount time acc1 acc2,
        dictGet? b.accounts a1 = some acc1 → dictGet? b.accounts a2 = some acc2 →
        pin ≠ acc1.pin →
        (transfer b a1 a2 pin amount time).2 = .error (.InvalidPinError "Invalid Pin")) ∧
    (∀ (b : Bank) a1 a2 pin amount time acc1 acc2,
        dictGet? b.accounts a1 = some acc1 → dictGet? b.accounts a2 = some acc2 →
        pin = acc1.pin → amount ≤ 0 →
        (transfer b a1 a2 pin amount time).2 =
          .error (.InvalidAmountError "Amount for deposit/withdrawal/transfer should be greater than 0")) ∧
    (∀ (b : Bank) a1 a2 pin amount time acc1 acc2,
        dictGet? b.accounts a1 = some acc1 → dictGet? b.accounts a2 = some acc2 →
        pin = acc1.pin → 0 < amount → acc1.balance - amount < MIN_BALANCE →
        (transfer b a1 a2 pin amount time).2 =
          .error (.InsufficientBalanceError
            ("Balance after withdrawal/transfer should be more than ₹" ++ toString MIN_BALANCE))) := by
  refine ⟨?_, ?_, ?_, ?_, ?_, ?_, ?_, ?_, ?_, ?_, ?_, ?_⟩
  · intro b account pin amount time h
    rw [deposit_not_found h]
  · intro b account pin amount time acc h hp
    rw [deposit_bad_pin h hp]
  · intro b account pin amount time acc h hp ha
    rw [deposit_bad_amount h hp ha]
  · intro b account pin amount time h
    rw [withdrawal_not_found h]
  · intro b account pin amount time acc h hp
    rw [withdrawal_bad_pin h hp]
  · intro b account pin amount time acc h hp ha
    rw [withdrawal_bad_amount h hp ha]
  · intro b account pin amount time acc h hp ha hb
    rw [withdrawal_insufficient h hp ha hb]
  · intro b a1 a2 pin amount time h
    rw [transfer_not_found_src h]
  · intro b a1 a2 pin amount time acc1 h1 h2
    rw [transfer_not_found_dst h1 h2]
  · intro b a1 a2 pin amount time acc1 acc2 h1 h2 hp
    rw [transfer_bad_pin h1 h2 hp]
  · intro b a1 a2 pin amount time acc1 acc2 h1 h2 hp ha
    rw [transfer_bad_amount h1 h2 hp ha]
  · intro b a1 a2 pin amount time acc1 acc2 h1 h2 hp ha hb
    rw [transfer_insufficient h1 h2 hp ha hb]

end Bank

namespace Bank

/-- C3: for distinct registered accounts X and Y, correct pin for X and
amount A > 0 with Bx - A at least 100, the transfer succeeds with X's
balance Bx - A and Y's balance By + A, appending exactly one new record to
each history (the source entry naming Y, the destination entry naming X,
both with the same timestamp); if Bx - A < 100 the transfer fails. -/
theorem C3_transfer_correct (b : Bank) (X Y : String) (pin A : Int) (t : Nat)
    (accX accY : Account) (hXY : X ≠ Y)
    (hX : dictGet? b.accounts X = some accX) (hY : dictGet? b.accounts Y = some accY)
    (hp : pin = accX.pin) (hA : 0 < A) :
    (MIN_BALANCE ≤ accX.balance - A →
       (transfer b X Y pin A t).2 =
         .ok { message := "✅ ₹" ++ toString A ++ " has been successfully transferred from "
                 ++ X ++ " to " ++ Y ++ ".",
               balance_from := accX.balance - A, balance_to := accY.balance + A } ∧
       dictGet? (transfer b X Y pin A t).1.accounts X =
         some { accX with
                  balance := accX.balance - A,
                  transaction_history := accX.transaction_history ++
                    [⟨"Transfer to " ++ Y, A, t, "Cash transfer"⟩] } ∧
       dictGet? (transfer b X Y pin A t).1.accounts Y =
         some { accY with
                  balance := accY.balance + A,
                  transaction_history := accY.transaction_history ++
                    [⟨"Transfer from " ++ X, A, t, "Cash transfer"⟩] } ∧
       (∀ j, j ≠ X → j ≠ Y →
          dictGet? (transfer b X Y pin A t).1.accounts j = dictGet? b.accounts j)) ∧
    (accX.balance - A < MIN_BALANCE →
       transfer b X Y pin A t = (b, .error (.InsufficientBalanceError
         ("Balance after withdrawal/transfer should be more than ₹" ++ toString MIN_BALANCE)))) := by
  constructor
  · intro hb
    rw [transfer_success_ne hXY hX hY hp hA hb]
    refine ⟨rfl, ?_, ?_, ?_⟩
    · rw [dictGet?_dictModify, if_neg hXY, dictGet?_dictModify, if_pos rfl, hX]
      rfl
    · rw [dictGet?_dictModify, if_pos rfl, dictGet?_dictModify,
        if_neg (fun hh : Y = X => hXY hh.symm), hY]
      rfl
    · intro j hjX hjY
      rw [dictGet?_dictModify, if_neg hjY, dictGet?_dictModify, if_neg hjX]
  · intro hb
    exact transfer_insufficient hX hY hp hA hb

/-- C9: a self-transfer of A > 0 from a registered account with balance B,
correct pin and B - A at least 100 succeeds, reports balance_from and
balance_to both equal to B, leaves the balance at B, and appends exactly
two records to the history. -/
theorem C9_self_transfer (b : Bank) (X : String) (pin A : Int) (t : Nat) (acc : Account)
    (h : dictGet? b.accounts X = some acc) (hp : pin = acc.pin) (hA : 0 < A)
    (hb : MIN_BALANCE ≤ acc.balance - A) :
    ∃ acc',
      (transfer b X X pin A t).2 =
        .ok { message := "✅ ₹" ++ toString A ++ " has been successfully transferred from "
                ++ X ++ " to " ++ X ++ ".",
              balance_from := acc.balance, balance_to := acc.balance } ∧
      dictGet? (transfer b X X pin A t).1.accounts X = some acc' ∧
      acc'.balance = acc.balance ∧
      acc'.transaction_history = acc.transaction_history ++
        [⟨"Transfer to " ++ X, A, t, "Cash transfer"⟩,
         ⟨"Transfer from " ++ X, A, t, "Cash transfer"⟩] := by
  rw [transfer_success_self h hp hA hb]
  refine ⟨{ acc with
            balance := acc.balance - A + A,
            transaction_history := acc.transaction_history ++
              [⟨"Transfer to " ++ X, A, t, "Cash transfer"⟩,
               ⟨"Transfer from " ++ X, A, t, "Cash transfer"⟩] }, ?_, ?_, ?_, ?_⟩
  · simp only [sub_add_cancel]
  · rw [dictGet?_dictModify, if_pos rfl, h]
    rfl
  · simp only [sub_add_cancel]
  · rfl

end Bank

namespace Bank

/-- C5: every successful account_creation stores a history with exactly one
record - a Deposit of the opening balance noted "Opening balance" - and
returns the fresh identifier together with the effective pin: the pin the
caller gave when it lies in [1000, 9999], otherwise a generated pin in
that range. -/
theorem C5_account_creation_result (b : Bank) (name : String) (balance : Int) (dob : String)
    (pin : Option Int) (today : Date) (now : Nat) (acctSeeds : List Nat) (pinSeed : Nat)
    (b' : Bank) (r : CreationResult)
    (h : account_creation b name balance dob pin today now acctSeeds pinSeed =
      some (b', .ok r)) :
    (∃ acc, dictGet? b'.accounts r.account_number = some acc ∧
       acc.transaction_history = [⟨"Deposit", balance, now, "Opening balance"⟩]) ∧
    dictGet? b.accounts r.account_number = none ∧
    1000 ≤ r.pin ∧ r.pin ≤ 9999 ∧
    (∀ p, pin = some p → 1000 ≤ p → p ≤ 9999 → r.pin = p) := by
  rcases account_creation_spec b name balance dob pin today now acctSeeds pinSeed with
    ⟨e, he⟩ | hnone | ⟨dob_date, n, hd, hbal, hn, hfresh, hs⟩
  · rw [he] at h; simp at h
  · rw [hnone] at h; simp at h
  · rw [hs] at h
    simp only [Option.some.injEq, Prod.mk.injEq, Except.ok.injEq] at h
    obtain ⟨hb', hr⟩ := h
    subst hb'
    subst hr
    refine ⟨⟨{ account_holder := name, balance := balance,
               transaction_history := [⟨"Deposit", balance, now, "Opening balance"⟩],
               creation_time := now, dob := dob_date, pin := effective_pin pin pinSeed },
             ?_, rfl⟩, hfresh, (effective_pin_range pin pinSeed).1,
            (effective_pin_range pin pinSeed).2, ?_⟩
    · rw [dictGet?_dictSet, if_pos rfl]
    · intro p hpin h1 h2
      subst hpin
      exact effective_pin_of_valid pinSeed h1 h2

/-- C6: for a registered account with balance B at least 100 and correct
pin, a deposit of D > 0 followed by a withdrawal of D succeeds, restores
the balance to exactly B, and appends exactly two records - a Deposit then
a Withdrawal, in that order. -/
theorem C6_deposit_withdrawal_roundtrip (b : Bank) (a : String) (pin D : Int) (t1 t2 : Nat) (acc : Account)
    (h : dictGet? b.accounts a = some acc) (hp : pin = acc.pin) (hD : 0 < D)
    (hB : MIN_BALANCE ≤ acc.balance) :
    ∃ r1 r2 acc2,
      (deposit b a pin D t1).2 = .ok r1 ∧
      (withdrawal (deposit b a pin D t1).1 a pin D t2).2 = .ok r2 ∧
      r2.balance = acc.balance ∧
      dictGet? (withdrawal (deposit b a pin D t1).1 a pin D t2).1.accounts a = some acc2 ∧
      acc2.balance = acc.balance ∧
      acc2.transaction_history = acc.transaction_history ++
        [⟨"Deposit", D, t1, "Cash deposit"⟩, ⟨"Withdrawal", D, t2, "Cash withdrawal"⟩] := by
  have hg1 : dictGet? (deposit b a pin D t1).1.accounts a =
      some { acc with
             balance := acc.balance + D,
             transaction_history := acc.transaction_history ++
               [⟨"Deposit", D, t1, "Cash deposit"⟩] } := by
    rw [deposit_success h hp hD, dictGet?_dictModify, if_pos rfl, h]
    rfl
  have hb1 : MIN_BALANCE ≤ ({ acc with
      balance := acc.balance + D,
      transaction_history := acc.transaction_history ++
        [⟨"Deposit", D, t1, "Cash deposit"⟩] } : Account).balance - D := by
    show MIN_BALANCE ≤ acc.balance + D - D
    simp only [MIN_BALANCE] at hB ⊢
    omega
  have hw := @withdrawal_success (deposit b a pin D t1).1 a pin D t2 _ hg1 hp hD hb1
  refine ⟨{ message := "✅ ₹" ++ toString D ++ " has been successfully deposited.",
            balance := acc.balance + D },
          { message := "✅ ₹" ++ toString D ++ " has been successfully withdrawn.",
            balance := acc.balance + D - D },
          { acc with
      balance := acc.balance + D - D,
      transaction_history := (acc.transaction_history ++
        [⟨"Deposit", D, t1, "Cash deposit"⟩]) ++
        [⟨"Withdrawal", D, t2, "Cash withdrawal"⟩] }, ?_, ?_, ?_, ?_, ?_, ?_⟩
  · rw [deposit_success h hp hD]
  · rw [hw]
  · show acc.balance + D - D = acc.balance
    omega
  · rw [hw, dictGet?_dictModify, if_pos rfl, hg1]
    rfl
  · show acc.balance + D - D = acc.balance
    omega
  · show (acc.transaction_history ++ [⟨"Deposit", D, t1, "Cash deposit"⟩]) ++
        [⟨"Withdrawal", D, t2, "Cash withdrawal"⟩] = acc.transaction_history ++
        [⟨"Deposit", D, t1, "Cash deposit"⟩, ⟨"Withdrawal", D, t2, "Cash withdrawal"⟩]
    simp

/-- C8: account_creation computes the applicant's age as the year difference
between the current date and the parsed date of birth, decremented by one
exactly when the current (month, day) pair precedes the birth (month, day)
pair, and fails with InvalidAgeError if and only if that age is not in
[18, 80]. -/
theorem C8_age_check (b : Bank) (name : String) (balance : Int) (dob : String)
    (pin : Option Int) (today : Date) (now : Nat) (acctSeeds : List Nat) (pinSeed : Nat)
    (dob_date : Date) (hlen : b.accounts.length ≠ MAX_ACCOUNTS)
    (hd : strptime_date dob = some dob_date) :
    computed_age today dob_date =
      (today.year : Int) - (dob_date.year : Int) -
        (if pairLt (today.month, today.day) (dob_date.month, dob_date.day) then 1 else 0) ∧
    (account_creation b name balance dob pin today now acctSeeds pinSeed =
       some (b, .error (.InvalidAgeError
         ("Sorry account creation is only allowed between the ages of " ++
           toString MIN_AGE ++ " and " ++ toString MAX_AGE))) ↔
     ¬(MIN_AGE ≤ computed_age today dob_date ∧ computed_age today dob_date ≤ MAX_AGE)) := by
  refine ⟨rfl, ?_, ?_⟩
  · intro h
    by_contra hage
    by_cases hbal : balance < MIN_BALANCE
    · rw [account_creation_low_balance hlen hd hage hbal] at h
      simp at h
    · cases hn : generate_account_number b acctSeeds with
      | none =>
          rw [account_creation_no_number hlen hd hage (not_lt.mp hbal) hn] at h
          simp at h
      | some n =>
          rw [account_creation_success hlen hd hage (not_lt.mp hbal) hn] at h
          simp at h
  · intro hage
    exact account_creation_bad_age hlen hd hage

end Bank

namespace Bank

/-- C7: every transaction record ever stored in any account's history has
one of the four kinds (Deposit, Withdrawal, Transfer-out, Transfer-in) and
a strictly positive amount: the empty ledger satisfies the invariant, and
every public mutating operation preserves it. -/
theorem C7_transaction_records_valid :
    inv_txns ⟨[]⟩ ∧
    (∀ b, inv_txns b → ∀ name balance dob pin today now acctSeeds pinSeed b' res,
        account_creation b name balance dob pin today now acctSeeds pinSeed = some (b', res) →
        inv_txns b') ∧
    (∀ b, inv_txns b →
        ∀ account pin amount time, inv_txns (deposit b account pin amount time).1) ∧
    (∀ b, inv_txns b →
        ∀ account pin amount time, inv_txns (withdrawal b account pin amount time).1) ∧
    (∀ b, inv_txns b →
        ∀ a1 a2 pin amount time, inv_txns (transfer b a1 a2 pin amount time).1) := by
  refine ⟨?_, ?_, ?_, ?_, ?_⟩
  · intro a acc h
    simp [dictGet?] at h
  · intro b hinv name balance dob pin today now acctSeeds pinSeed b' res h
    rcases account_creation_spec b name balance dob pin today now acctSeeds pinSeed with
      ⟨e, he⟩ | hnone | ⟨dob_date, n, hd, hbal, hn, hfresh, hs⟩
    · rw [he] at h
      simp only [Option.some.injEq, Prod.mk.injEq] at h
      rw [← h.1]
      exact hinv
    · rw [hnone] at h; simp at h
    · rw [hs] at h
      simp only [Option.some.injEq, Prod.mk.injEq] at h
      rw [← h.1]
      intro j acc' hget
      rcases dictGet?_inserted hget with ⟨hj, hacc⟩ | ⟨hj, hacc⟩
      · subst hacc
        intro t ht
        simp only [List.mem_singleton] at ht
        subst ht
        refine ⟨Or.inl rfl, ?_⟩
        simp only [MIN_BALANCE] at hbal
        show (0 : Int) < balance
        omega
      · exact hinv j acc' hacc
  · intro b hinv account pin amount time
    rcases deposit_spec b account pin amount time with ⟨e, he⟩ | ⟨acc, hg, hp, ha, hs⟩
    · rw [he]; exact hinv
    · rw [hs]
      intro j acc' hget
      rcases dictGet?_modified hget with ⟨hj, acc0, hg0, hacc⟩ | ⟨hj, hacc⟩
      · subst hacc
        intro t ht
        simp only [List.mem_append, List.mem_singleton] at ht
        rcases ht with ht | ht
        · exact hinv account acc0 hg0 t ht
        · subst ht
          exact ⟨Or.inl rfl, ha⟩
      · exact hinv j acc' hacc
  · intro b hinv account pin amount time
    rcases withdrawal_spec b account pin amount time with ⟨e, he⟩ | ⟨acc, hg, hp, ha, hb, hs⟩
    · rw [he]; exact hinv
    · rw [hs]
      intro j acc' hget
      rcases dictGet?_modified hget with ⟨hj, acc0, hg0, hacc⟩ | ⟨hj, hacc⟩
      · subst hacc
        intro t ht
        simp only [List.mem_append, List.mem_singleton] at ht
        rcases ht with ht | ht
        · exact hinv account acc0 hg0 t ht
        · subst ht
          exact ⟨Or.inr (Or.inl rfl), ha⟩
      · exact hinv j acc' hacc
  · intro b hinv a1 a2 pin amount time
    rcases transfer_spec b a1 a2 pin amount time with
      ⟨e, he⟩ | ⟨hne, acc1, acc2, hg1, hg2, hp, ha, hb, hs⟩ |
      ⟨heq, acc, hg, hp, ha, hb, hs⟩
    · rw [he]; exact hinv
    · rw [hs]
      intro j acc' hget
      rcases dictGet?_modified hget with ⟨hj2, acc0, hg0, hacc⟩ | ⟨hj2, hacc⟩
      · subst hacc
        rcases dictGet?_modified hg0 with ⟨hj1, acc3, hg3, hacc3⟩ | ⟨hj1, hacc3⟩
        · exact absurd hj1.symm hne
        · intro t ht
          simp only [List.mem_append, List.mem_singleton] at ht
          rcases ht with ht | ht
          · exact hinv a2 acc0 hacc3 t ht
          · subst ht
            exact ⟨Or.inr (Or.inr (Or.inr ⟨a1, rfl⟩)), ha⟩
      · rcases dictGet?_modified hacc with ⟨hj1, acc3, hg3, hacc3⟩ | ⟨hj1, hacc3⟩
        · subst hacc3
          intro t ht
          simp only [List.mem_append, List.mem_singleton] at ht
          rcases ht with ht | ht
          · exact hinv a1 acc3 hg3 t ht
          · subst ht
            exact ⟨Or.inr (Or.inr (Or.inl ⟨a2, rfl⟩)), ha⟩
        · exact hinv j acc' hacc3
    · rw [hs]
      intro j acc' hget
      rcases dictGet?_modified hget with ⟨hj, acc0, hg0, hacc⟩ | ⟨hj, hacc⟩
      · subst hacc
        intro t ht
        simp only [List.mem_append, List.mem_cons, List.not_mem_nil, or_false] at ht
        rcases ht with ht | ht | ht
        · exact hinv a1 acc0 hg0 t ht
        · subst ht
          exact ⟨Or.inr (Or.inr (Or.inl ⟨a1, rfl⟩)), ha⟩
        · subst ht
          exact ⟨Or.inr (Or.inr (Or.inr ⟨a1, rfl⟩)), ha⟩
      · exact hinv j acc' hacc

end Bank

namespace Bank

theorem inv_balance_testBank : inv_balance testBank := by
  intro a acc h
  simp only [testBank, dictGet?] at h
  split at h
  · cases h; decide
  · split at h
    · cases h; decide
    · cases h

/-- C1 at a concrete ledger: a deposit into the two-account test ledger
keeps every balance at or above MIN_BALANCE. -/
theorem C1_min_balance_invariant_witness :
    inv_balance (deposit testBank "2304060001" 1234 200 5).1 :=
  (C1_min_balance_invariant testBank inv_balance_testBank).2.1 "2304060001" 1234 200 5
    (deposit testBank "2304060001" 1234 200 5).1
    { message := "✅ ₹200 has been successfully deposited.", balance := 700 }
    (by decide)

/-- C3 at a concrete ledger: transferring 300 between the two test accounts. -/
theorem C3_transfer_correct_witness :
    (transfer testBank "2304060001" "2304060002" 1234 300 7).2 =
      .ok { message := "✅ ₹300 has been successfully transferred from 2304060001 to 2304060002.",
            balance_from := 200, balance_to := 1300 } :=
  (((C3_transfer_correct testBank "2304060001" "2304060002" 1234 300 7 aliceAcc bobAcc
      (by decide) (by decide) (by decide) (by decide) (by decide)).1) (by decide)).1

/-- C5 at a concrete call: creating Alice's account in the empty ledger. -/
theorem C5_account_creation_result_witness :
    (∃ acc, dictGet? newBank.accounts newResult.account_number = some acc ∧
       acc.transaction_history = [⟨"Deposit", (500 : Int), 3, "Opening balance"⟩]) ∧
    dictGet? (Bank.mk []).accounts newResult.account_number = none ∧
    1000 ≤ newResult.pin ∧ newResult.pin ≤ 9999 ∧
    (∀ p, (some (1234 : Int) : Option Int) = some p → 1000 ≤ p → p ≤ 9999 →
       newResult.pin = p) :=
  C5_account_creation_result ⟨[]⟩ "Alice" 500 "1995-05-12" (some 1234) ⟨2026, 10, 12⟩ 3
    [17] 42 newBank newResult (by decide)

/-- C6 at a concrete ledger: deposit 200 then withdraw 200 on Alice's account. -/
theorem C6_deposit_withdrawal_roundtrip_witness :
    ∃ r1 r2 acc2,
      (deposit testBank "2304060001" 1234 200 5).2 = .ok r1 ∧
      (withdrawal (deposit testBank "2304060001" 1234 200 5).1 "2304060001" 1234 200 6).2 =
        .ok r2 ∧
      r2.balance = aliceAcc.balance ∧
      dictGet? (withdrawal (deposit testBank "2304060001" 1234 200 5).1 "2304060001"
        1234 200 6).1.accounts "2304060001" = some acc2 ∧
      acc2.balance = aliceAcc.balance ∧
      acc2.transaction_history = aliceAcc.transaction_history ++
        [⟨"Deposit", 200, 5, "Cash deposit"⟩, ⟨"Withdrawal", 200, 6, "Cash withdrawal"⟩] :=
  C6_deposit_withdrawal_roundtrip testBank "2304060001" 1234 200 5 6 aliceAcc
    (by decide) (by decide) (by decide) (by decide)

/-- C8 at a concrete call: a 2015 date of birth in 2026 is under age. -/
theorem C8_age_check_witness :
    computed_age ⟨2026, 10, 12⟩ ⟨2015, 1, 1⟩ =
      ((2026 : Int) - (2015 : Int) - (if pairLt (10, 12) (1, 1) then 1 else 0)) ∧
    (account_creation ⟨[]⟩ "Kid" 500 "2015-01-01" none ⟨2026, 10, 12⟩ 0 [0] 0 =
       some (⟨[]⟩, .error (.InvalidAgeError
         ("Sorry account creation is only allowed between the ages of " ++
           toString MIN_AGE ++ " and " ++ toString MAX_AGE))) ↔
     ¬(MIN_AGE ≤ computed_age ⟨2026, 10, 12⟩ ⟨2015, 1, 1⟩ ∧
        computed_age ⟨2026, 10, 12⟩ ⟨2015, 1, 1⟩ ≤ MAX_AGE)) :=
  C8_age_check ⟨[]⟩ "Kid" 500 "2015-01-01" none ⟨2026, 10, 12⟩ 0 [0] 0 ⟨2015, 1, 1⟩
    (by decide) (by decide)

/-- C9 at a concrete ledger: a self-transfer of 300 on Alice's account. -/
theorem C9_self_transfer_witness :
    ∃ acc',
      (transfer testBank "2304060001" "2304060001" 1234 300 7).2 =
        .ok { message := "✅ ₹300 has been successfully transferred from 2304060001 to 2304060001.",
              balance_from := aliceAcc.balance, balance_to := aliceAcc.balance } ∧
      dictGet? (transfer testBank "2304060001" "2304060001" 1234 300 7).1.accounts
        "2304060001" = some acc' ∧
      acc'.balance = aliceAcc.balance ∧
      acc'.transaction_history = aliceAcc.transaction_history ++
        [⟨"Transfer to 2304060001", 300, 7, "Cash transfer"⟩,
         ⟨"Transfer from 2304060001", 300, 7, "Cash transfer"⟩] :=
  C9_self_transfer testBank "2304060001" 1234 300 7 aliceAcc
    (by decide) (by decide) (by decide) (by decide)

end Bank
